import Mathlib

/-!
Shallow embedding of the films/actors record-management application
(Flask views in `views/actors.py`, `views/films.py`, model layer in
`models.py`, rating client in `utils.py`).

Conventions of the embedding:
* UUID identifiers become `Nat`; the database assigns fresh ids from a
  counter `nextId` (the uniqueness of `uuid4` made explicit).
* The relational store is a `DB` record of three tables (lists of rows).
* Each POST handler becomes a pure function from the current store and
  the parsed request to an `Outcome` paired with the next store; the
  GET branches and HTML rendering are outside the model.
* `datetime.strptime(s, '%Y-%m-%d')` becomes `parseDate`; a parse
  failure (Python `ValueError`) and any other unhandled exception
  surface as `Outcome.serverError`.
* `pycountry.countries` is an external list, so the operations take the
  country list as a parameter.
-/

namespace FilmsApp

/-- A calendar date as Python's `datetime.date`: ordered lexicographically
by (year, month, day). -/
structure Date where
  year : Nat
  month : Nat
  day : Nat
deriving DecidableEq, Repr

/-- Python's `<` on `datetime.date`: lexicographic on (year, month, day). -/
def Date.lt (a b : Date) : Bool :=
  if a.year ≠ b.year then a.year < b.year
  else if a.month ≠ b.month then a.month < b.month
  else a.day < b.day

/-- The value of a decimal digit character, `none` on anything else. -/
def digitVal (c : Char) : Option Nat :=
  if '0' ≤ c ∧ c ≤ '9' then some (c.toNat - Char.toNat '0') else none

/-- Parse a nonempty all-digit character run as a natural number
(accumulator form). -/
def parseDigits : List Char → Nat → Option Nat
  | [], acc => some acc
  | c :: cs, acc =>
    match digitVal c with
    | none => none
    | some d => parseDigits cs (acc * 10 + d)

/-- A nonempty decimal numeral, as Python's `int(...)` of one dash-free
field requires. -/
def parseNatPart (cs : List Char) : Option Nat :=
  match cs with
  | [] => none
  | _ => parseDigits cs 0

/-- Split a character list at every `'-'`. -/
def splitDash : List Char → List (List Char)
  | [] => [[]]
  | c :: cs =>
    let r := splitDash cs
    if c = '-' then [] :: r
    else
      match r with
      | [] => [[c]]
      | p :: ps => (c :: p) :: ps

/-- `datetime.strptime(s, '%Y-%m-%d').date()`: parses `YYYY-MM-DD`,
failing (Python raises `ValueError`) on anything else — in particular on
the empty string that an empty form field submits. -/
def parseDate (s : String) : Option Date :=
  match splitDash s.toList with
  | [ys, ms, ds] =>
    match parseNatPart ys, parseNatPart ms, parseNatPart ds with
    | some y, some m, some d =>
      if 1 ≤ m ∧ m ≤ 12 ∧ 1 ≤ d ∧ d ≤ 31 then some ⟨y, m, d⟩ else none
    | _, _, _ => none
  | _ => none

/-- Python's `int(...)` on a form string: an optional leading minus sign
followed by a nonempty digit run; anything else raises `ValueError`. -/
def parseInt (s : String) : Option Int :=
  match s.toList with
  | '-' :: cs => (parseNatPart cs).map (fun n => -(n : Int))
  | cs => (parseNatPart cs).map (fun n => (n : Int))

/-- A row of the `actors` table (`models.Actor`). -/
structure ActorRec where
  id : Nat
  full_name : String
  birth_date : Option Date
  sex : String
  death : Option Date
  country : String
deriving DecidableEq, Repr

/-- A row of the `films` table (`models.Film`). `year` is the integer
column; `rating` is kept as the raw submitted string (the column is a
float the logic never inspects). -/
structure FilmRec where
  id : Nat
  title : String
  description : String
  year : Int
  rating : String
  country : String
  status : String
  genre : String
deriving DecidableEq, Repr

/-- A row of the `films_actors` join table (`models.FilmToActor`). -/
structure Assoc where
  id : Nat
  film_id : Nat
  actor_id : Nat
deriving DecidableEq, Repr

/-- The relational store: the three tables plus the fresh-id counter. -/
structure DB where
  actors : List ActorRec
  films : List FilmRec
  assocs : List Assoc
  nextId : Nat
deriving DecidableEq, Repr

/-- How a request ends: Werkzeug's `BadRequest`, `NotFound`, `Conflict`,
an unhandled Python exception (HTTP 500), or success carrying the
rendered/redirect payload. -/
inductive Outcome (α : Type) where
  | badRequest (msg : String)
  | notFound (msg : String)
  | conflict (msg : String)
  | serverError (msg : String)
  | ok (res : α)
deriving DecidableEq, Repr

/-- The outcome class: which of the five ways the request ended,
message and payload forgotten. -/
inductive Oclass where
  | bad
  | nf
  | conf
  | err
  | success
deriving DecidableEq, Repr

def Outcome.cls {α : Type} : Outcome α → Oclass
  | .badRequest _ => .bad
  | .notFound _ => .nf
  | .conflict _ => .conf
  | .serverError _ => .err
  | .ok _ => .success

/-- `db.session.scalar(select(Actor).where(Actor.id == actor_id))`. -/
def findActor (st : DB) (actor_id : Nat) : Option ActorRec :=
  st.actors.find? (fun a => a.id == actor_id)

/-- `db.session.scalar(select(Film).where(Film.id == film_id))`. -/
def findFilm (st : DB) (film_id : Nat) : Option FilmRec :=
  st.films.find? (fun f => f.id == film_id)

/-- `db.session.scalar(select(FilmToActor).where(actor_id == a, film_id == f))`. -/
def findAssoc (st : DB) (actor_id film_id : Nat) : Option Assoc :=
  st.assocs.find? (fun x => x.actor_id == actor_id && x.film_id == film_id)

/-- Number of join-table rows for one (actor, film) pair. -/
def countPair (st : DB) (actor_id film_id : Nat) : Nat :=
  (st.assocs.filter (fun x => x.actor_id == actor_id && x.film_id == film_id)).length

/-- The POST form of `views/actors.py::add_actor` (field names without
their `actor-` prefix). -/
structure ActorForm where
  full_name : String
  birth_date : String
  sex : String
  country : String
  death : String
deriving DecidableEq, Repr

/-- `views/actors.py::add_actor`, POST branch. Parses both dates first
(each raising `ValueError` on bad input), then runs the four checks in
source order, then inserts and commits. -/
def add_actor (today : Date) (countries : List String) (st : DB)
    (form : ActorForm) : Outcome Nat × DB :=
  match parseDate form.birth_date with
  | none => (.serverError "ValueError: invalid date", st)
  | some birth_date =>
    match parseDate form.death with
    | none => (.serverError "ValueError: invalid date", st)
    | some death =>
      if Date.lt today birth_date then
        (.badRequest "Birth date cannot be in the future.", st)
      else if Date.lt death birth_date then
        (.badRequest "Birth date cannot bigger than death", st)
      else if Date.lt today death then
        (.badRequest "Death date cannot be in the future.", st)
      else if form.country ∉ countries then
        (.badRequest "This country does not exists, please write full name of your country", st)
      else
        let actor : ActorRec :=
          { id := st.nextId, full_name := form.full_name,
            birth_date := some birth_date, sex := form.sex,
            death := some death, country := form.country }
        (.ok actor.id,
          { st with actors := st.actors ++ [actor], nextId := st.nextId + 1 })

/-- `views/actors.py::update_actor`, POST branch: not-found lookup first,
then the same parse/validate sequence as create, then an UPDATE of every
field of the row (id kept). -/
def update_actor (today : Date) (countries : List String) (st : DB)
    (actor_id : Nat) (form : ActorForm) : Outcome Nat × DB :=
  match findActor st actor_id with
  | none => (.notFound "Actor not found!", st)
  | some actor =>
    match parseDate form.birth_date with
    | none => (.serverError "ValueError: invalid date", st)
    | some birth_date =>
      match parseDate form.death with
      | none => (.serverError "ValueError: invalid date", st)
      | some death =>
        if Date.lt today birth_date then
          (.badRequest "Birth date cannot be in the future.", st)
        else if Date.lt death birth_date then
          (.badRequest "Birth date cannot bigger than death", st)
        else if Date.lt today death then
          (.badRequest "Death date cannot be in the future.", st)
        else if form.country ∉ countries then
          (.badRequest "This country does not exists, please write full name of your country", st)
        else
          (.ok actor.id,
            { st with actors := st.actors.map (fun a =>
                if a.id == actor.id then
                  { a with full_name := form.full_name,
                           birth_date := some birth_date, sex := form.sex,
                           country := form.country, death := some death }
                else a) })

def MAX_TITLE_LENGTH : Nat := 200
def MAX_DESCRIPTION_LENGTH : Nat := 1000
def MAX_GENRE_LENGTH : Nat := 150

def valid_statuses : List String := ["completed", "continues", "announcement"]

/-- The POST form of `views/films.py::add_film` (field names without
their `film-` prefix). `year` arrives as a string and is converted with
`int(...)` inside the year check. -/
structure FilmForm where
  title : String
  description : String
  country : String
  year : String
  rating : String
  status : String
  genre : String
deriving DecidableEq, Repr

/-- `views/films.py::add_film`, POST branch: the three length checks (all
strict-at-the-limit: `len(x) >= MAX` rejects), the year check via
`int(year)`, country and status membership, then insert and commit. -/
def add_film (today : Date) (countries : List String) (st : DB)
    (form : FilmForm) : Outcome Nat × DB :=
  if form.title.length ≥ MAX_TITLE_LENGTH then
    (.badRequest "Length of title must not be greater than 200 symbols", st)
  else if form.description.length ≥ MAX_DESCRIPTION_LENGTH then
    (.badRequest "Length of description must not be greater than 1000 symbols", st)
  else if form.genre.length ≥ MAX_GENRE_LENGTH then
    (.badRequest "Length of genre must not be greater than 150 symbols", st)
  else
    match parseInt form.year with
    | none => (.serverError "ValueError: invalid int", st)
    | some y =>
      if y > (today.year : Int) then
        (.badRequest "Film year cannot be in the future.", st)
      else if form.country ∉ countries then
        (.badRequest "This country does not exists, please write full name of your country", st)
      else if form.status ∉ valid_statuses then
        (.badRequest "This status does not exist, use one of these: completed, continues, announcement", st)
      else
        let film : FilmRec :=
          { id := st.nextId, title := form.title,
            description := form.description, year := y,
            rating := form.rating, country := form.country,
            status := form.status, genre := form.genre }
        (.ok film.id,
          { st with films := st.films ++ [film], nextId := st.nextId + 1 })

/-- `views/films.py::update_film`, POST branch: not-found lookup first,
then the same validation sequence as create, then an UPDATE of every
field of the row (id kept). -/
def update_film (today : Date) (countries : List String) (st : DB)
    (film_id : Nat) (form : FilmForm) : Outcome Nat × DB :=
  match findFilm st film_id with
  | none => (.notFound "Film not found!", st)
  | some film =>
    if form.title.length ≥ MAX_TITLE_LENGTH then
      (.badRequest "Length of title must not be greater than 200 symbols", st)
    else if form.description.length ≥ MAX_DESCRIPTION_LENGTH then
      (.badRequest "Length of description must not be greater than 1000 symbols", st)
    else if form.genre.length ≥ MAX_GENRE_LENGTH then
      (.badRequest "Length of genre must not be greater than 150 symbols", st)
    else
      match parseInt form.year with
      | none => (.serverError "ValueError: invalid int", st)
      | some y =>
        if y > (today.year : Int) then
          (.badRequest "Film year cannot be in the future.", st)
        else if form.country ∉ countries then
          (.badRequest "This country does not exists, please write full name of your country", st)
        else if form.status ∉ valid_statuses then
          (.badRequest "This status does not exist, please one of this: completed, continues, announcement", st)
        else
          (.ok film.id,
            { st with films := st.films.map (fun f =>
                if f.id == film.id then
                  { f with title := form.title,
                           description := form.description,
                           country := form.country, year := y,
                           rating := form.rating, status := form.status,
                           genre := form.genre }
                else f) })

/-- `views/actors.py::delete_actor`: not-found lookup, then in one
transaction a DELETE of every join row referencing the actor followed by
the DELETE of the actor row, then a single commit. -/
def delete_actor (st : DB) (actor_id : Nat) : Outcome Unit × DB :=
  match findActor st actor_id with
  | none => (.notFound "Actor not found!", st)
  | some actor =>
    (.ok (),
      { st with
          assocs := st.assocs.filter (fun x => x.actor_id != actor.id),
          actors := st.actors.filter (fun a => a.id != actor_id) })

/-- `views/films.py::delete_film`: mirror image of `delete_actor`. -/
def delete_film (st : DB) (film_id : Nat) : Outcome Unit × DB :=
  match findFilm st film_id with
  | none => (.notFound "Film not found!", st)
  | some film =>
    (.ok (),
      { st with
          assocs := st.assocs.filter (fun x => x.film_id != film.id),
          films := st.films.filter (fun f => f.id != film_id) })

/-- `views/actors.py::add_film`, POST branch (the actor-side link).
Source order: actor lookup (NotFound), film lookup, existing-pair lookup
raising Conflict, only then the film NotFound check, then insert. -/
def actor_add_film (st : DB) (actor_id film_id : Nat) : Outcome Nat × DB :=
  match findActor st actor_id with
  | none => (.notFound "Actor not found!", st)
  | some _ =>
    let film := findFilm st film_id
    match findAssoc st actor_id film_id with
    | some _ => (.conflict "Film is already matched with this actor", st)
    | none =>
      match film with
      | none => (.notFound "Film not found!", st)
      | some _ =>
        (.ok st.nextId,
          { st with assocs := st.assocs ++ [⟨st.nextId, film_id, actor_id⟩],
                    nextId := st.nextId + 1 })

/-- `views/films.py::add_actor`, POST branch (the film-side link).
Source order: film lookup (NotFound), actor lookup (NotFound),
existing-pair lookup raising Conflict, then insert. -/
def film_add_actor (st : DB) (film_id actor_id : Nat) : Outcome Nat × DB :=
  match findFilm st film_id with
  | none => (.notFound "Film not found!", st)
  | some _ =>
    match findActor st actor_id with
    | none => (.notFound "Actor not found!", st)
    | some _ =>
      match findAssoc st actor_id film_id with
      | some _ => (.conflict "Actor is already matched with this film", st)
      | none =>
        (.ok st.nextId,
          { st with assocs := st.assocs ++ [⟨st.nextId, film_id, actor_id⟩],
                    nextId := st.nextId + 1 })

/-- `views/actors.py::delete_film` (the actor-side unlink): look the join
row up; delete-and-commit only when it exists; redirect either way. -/
def actor_delete_film (st : DB) (actor_id film_id : Nat) : Outcome Unit × DB :=
  match findAssoc st actor_id film_id with
  | none => (.ok (), st)
  | some fta =>
    (.ok (), { st with assocs := st.assocs.filter (fun x => x.id != fta.id) })

/-- `views/films.py::delete_actor` (the film-side unlink): same body as
the actor-side unlink. -/
def film_delete_actor (st : DB) (film_id actor_id : Nat) : Outcome Unit × DB :=
  match findAssoc st actor_id film_id with
  | none => (.ok (), st)
  | some fta =>
    (.ok (), { st with assocs := st.assocs.filter (fun x => x.id != fta.id) })

/-- One document of the external search response, reduced to the one
field the code reads: `doc['rating']['kp']`. -/
structure MovieDoc where
  rating_kp : String
deriving DecidableEq, Repr

/-- The JSON body of the external search response: its `docs` list. -/
structure MovieData where
  docs : List MovieDoc
deriving DecidableEq, Repr

/-- The HTTP response of the external rating service. -/
structure HttpResp where
  status_code : Nat
  body : MovieData
deriving DecidableEq, Repr

def OK : Nat := 200

/-- `utils.py::get_rating_movie`: returns the parsed JSON body on a 200
response and `None` (falls off the function) otherwise. -/
def get_rating_movie (resp : HttpResp) : Option MovieData :=
  if resp.status_code == OK then some resp.body else none

/-- `views/films.py::detail`, modelled on the response the external call
produced. After the not-found lookup the code runs `movie_data['docs']`
unconditionally: when `get_rating_movie` returned `None` this raises
`TypeError` (an unhandled 500). Otherwise the rating is the first doc's
`rating.kp`, or `None` when `docs` is empty, and the page renders. -/
def film_detail (st : DB) (film_id : Nat) (resp : HttpResp) :
    Outcome (FilmRec × Option String) :=
  match findFilm st film_id with
  | none => .notFound "Film not found!"
  | some film =>
    match get_rating_movie resp with
    | none => .serverError "TypeError: NoneType object is not subscriptable"
    | some movie_data =>
      match movie_data.docs with
      | [] => .ok (film, none)
      | doc :: _ => .ok (film, some doc.rating_kp)

/-- `views/actors.py::detail`: not-found lookup, then render the actor
and the films reached through its join rows. -/
def actor_detail (st : DB) (actor_id : Nat) : Outcome (ActorRec × List FilmRec) :=
  match findActor st actor_id with
  | none => .notFound "Actor not found!"
  | some actor =>
    .ok (actor,
      (st.assocs.filter (fun x => x.actor_id == actor_id)).filterMap
        (fun x => findFilm st x.film_id))

/-- `models.Actor.age`: `None` without a birth date; else current year
minus birth year, minus one more when today's (month, day) precedes the
birth (month, day). -/
def ActorRec.age (today : Date) (a : ActorRec) : Option Int :=
  match a.birth_date with
  | none => none
  | some b =>
    if today.month < b.month || (today.month == b.month && today.day < b.day) then
      some ((today.year : Int) - (b.year : Int) - 1)
    else
      some ((today.year : Int) - (b.year : Int))

/-! ## Foreign-key consistency and reachability

`models.FilmToActor` declares `ForeignKey('films.id')` and
`ForeignKey('actors.id')`, so in any state of the running system every
join row references an existing film and an existing actor. `WF`
captures that; `Reachable` is the set of stores the application's own
operations can produce from the empty store, and every reachable store
is `WF`. -/

/-- Every join row references an existing actor and an existing film
(the two foreign keys of `films_actors`). -/
def WF (st : DB) : Prop :=
  ∀ fta ∈ st.assocs,
    (∃ a ∈ st.actors, a.id = fta.actor_id) ∧ (∃ f ∈ st.films, f.id = fta.film_id)

instance (st : DB) : Decidable (WF st) := by
  unfold WF; infer_instance

/-- The stores producible from the empty store by the application's own
request handlers. -/
inductive Reachable : DB → Prop where
  | base : Reachable ⟨[], [], [], 0⟩
  | stepAddActor (today : Date) (cs : List String) (form : ActorForm) {st : DB} :
      Reachable st → Reachable (add_actor today cs st form).2
  | stepUpdateActor (today : Date) (cs : List String) (i : Nat) (form : ActorForm) {st : DB} :
      Reachable st → Reachable (update_actor today cs st i form).2
  | stepAddFilm (today : Date) (cs : List String) (form : FilmForm) {st : DB} :
      Reachable st → Reachable (add_film today cs st form).2
  | stepUpdateFilm (today : Date) (cs : List String) (i : Nat) (form : FilmForm) {st : DB} :
      Reachable st → Reachable (update_film today cs st i form).2
  | stepDeleteActor (i : Nat) {st : DB} :
      Reachable st → Reachable (delete_actor st i).2
  | stepDeleteFilm (i : Nat) {st : DB} :
      Reachable st → Reachable (delete_film st i).2
  | stepActorAddFilm (a f : Nat) {st : DB} :
      Reachable st → Reachable (actor_add_film st a f).2
  | stepFilmAddActor (f a : Nat) {st : DB} :
      Reachable st → Reachable (film_add_actor st f a).2
  | stepActorDeleteFilm (a f : Nat) {st : DB} :
      Reachable st → Reachable (actor_delete_film st a f).2
  | stepFilmDeleteActor (f a : Nat) {st : DB} :
      Reachable st → Reachable (film_delete_actor st f a).2

theorem wf_of_parts {st st' : DB} (h : WF st)
    (hassoc : ∀ x ∈ st'.assocs, x ∈ st.assocs)
    (hact : ∀ x ∈ st.actors, ∃ a ∈ st'.actors, a.id = x.id)
    (hfilm : ∀ x ∈ st.films, ∃ f ∈ st'.films, f.id = x.id) :
    WF st' := by
  intro fta hm
  obtain ⟨⟨a, ha, hid⟩, ⟨f, hf, hfid⟩⟩ := h fta (hassoc _ hm)
  obtain ⟨a', ha', hid'⟩ := hact a ha
  obtain ⟨f', hf', hfid'⟩ := hfilm f hf
  exact ⟨⟨a', ha', hid'.trans hid⟩, ⟨f', hf', hfid'.trans hfid⟩⟩

theorem add_actor_shape (today : Date) (cs : List String) (st : DB) (form : ActorForm) :
    (add_actor today cs st form).2 = st ∨
    ∃ a : ActorRec, (add_actor today cs st form).2 =
      ⟨st.actors ++ [a], st.films, st.assocs, st.nextId + 1⟩ := by
  unfold add_actor
  cases parseDate form.birth_date with
  | none => exact Or.inl rfl
  | some b =>
    cases parseDate form.death with
    | none => exact Or.inl rfl
    | some d =>
      dsimp only
      split_ifs <;> first
        | exact Or.inl rfl
        | exact Or.inr ⟨_, rfl⟩

theorem add_actor_wf {st : DB} (h : WF st) (today : Date) (cs : List String)
    (form : ActorForm) : WF (add_actor today cs st form).2 := by
  rcases add_actor_shape today cs st form with heq | ⟨a, heq⟩ <;> rw [heq]
  · exact h
  · exact wf_of_parts h (fun x hx => hx)
      (fun x hx => ⟨x, List.mem_append_left _ hx, rfl⟩)
      (fun x hx => ⟨x, hx, rfl⟩)

theorem update_actor_shape (today : Date) (cs : List String) (st : DB) (i : Nat)
    (form : ActorForm) :
    (update_actor today cs st i form).2 = st ∨
    ∃ g : ActorRec → ActorRec, (∀ x, (g x).id = x.id) ∧
      (update_actor today cs st i form).2 =
        ⟨st.actors.map g, st.films, st.assocs, st.nextId⟩ := by
  unfold update_actor
  cases findActor st i with
  | none => exact Or.inl rfl
  | some actor =>
    cases parseDate form.birth_date with
    | none => exact Or.inl rfl
    | some b =>
      cases parseDate form.death with
      | none => exact Or.inl rfl
      | some d =>
        dsimp only
        split_ifs <;> first
          | exact Or.inl rfl
          | exact Or.inr ⟨_, fun x => by split <;> rfl, rfl⟩

theorem update_actor_wf {st : DB} (h : WF st) (today : Date) (cs : List String)
    (i : Nat) (form : ActorForm) : WF (update_actor today cs st i form).2 := by
  rcases update_actor_shape today cs st i form with heq | ⟨g, hg, heq⟩ <;> rw [heq]
  · exact h
  · exact wf_of_parts h (fun x hx => hx)
      (fun x hx => ⟨g x, List.mem_map_of_mem g hx, hg x⟩)
      (fun x hx => ⟨x, hx, rfl⟩)

theorem add_film_shape (today : Date) (cs : List String) (st : DB) (form : FilmForm) :
    (add_film today cs st form).2 = st ∨
    ∃ f : FilmRec, (add_film today cs st form).2 =
      ⟨st.actors, st.films ++ [f], st.assocs, st.nextId + 1⟩ := by
  unfold add_film
  cases parseInt form.year with
  | none =>
    split_ifs <;> exact Or.inl rfl
  | some y =>
    dsimp only
    split_ifs <;> first
      | exact Or.inl rfl
      | exact Or.inr ⟨_, rfl⟩

theorem add_film_wf {st : DB} (h : WF st) (today : Date) (cs : List String)
    (form : FilmForm) : WF (add_film today cs st form).2 := by
  rcases add_film_shape today cs st form with heq | ⟨f, heq⟩ <;> rw [heq]
  · exact h
  · exact wf_of_parts h (fun x hx => hx)
      (fun x hx => ⟨x, hx, rfl⟩)
      (fun x hx => ⟨x, List.mem_append_left _ hx, rfl⟩)

theorem update_film_shape (today : Date) (cs : List String) (st : DB) (i : Nat)
    (form : FilmForm) :
    (update_film today cs st i form).2 = st ∨
    ∃ g : FilmRec → FilmRec, (∀ x, (g x).id = x.id) ∧
      (update_film today cs st i form).2 =
        ⟨st.actors, st.films.map g, st.assocs, st.nextId⟩ := by
  unfold update_film
  cases findFilm st i with
  | none => exact Or.inl rfl
  | some film =>
    cases parseInt form.year with
    | none =>
      split_ifs <;> exact Or.inl rfl
    | some y =>
      dsimp only
      split_ifs <;> first
        | exact Or.inl rfl
        | exact Or.inr ⟨_, fun x => by split <;> rfl, rfl⟩

theorem update_film_wf {st : DB} (h : WF st) (today : Date) (cs : List String)
    (i : Nat) (form : FilmForm) : WF (update_film today cs st i form).2 := by
  rcases update_film_shape today cs st i form with heq | ⟨g, hg, heq⟩ <;> rw [heq]
  · exact h
  · exact wf_of_parts h (fun x hx => hx)
      (fun x hx => ⟨x, hx, rfl⟩)
      (fun x hx => ⟨g x, List.mem_map_of_mem g hx, hg x⟩)

/-- A successful actor lookup pins the row's id to the looked-up id. -/
theorem findActor_id {st : DB} {i : Nat} {a : ActorRec}
    (h : findActor st i = some a) : a.id = i := by
  have hp := List.find?_some (show st.actors.find? (fun x => x.id == i) = some a from h)
  simpa using hp

/-- A successful film lookup pins the row's id to the looked-up id. -/
theorem findFilm_id {st : DB} {i : Nat} {f : FilmRec}
    (h : findFilm st i = some f) : f.id = i := by
  have hp := List.find?_some (show st.films.find? (fun x => x.id == i) = some f from h)
  simpa using hp

/-- A successful join-row lookup pins both foreign ids. -/
theorem findAssoc_ids {st : DB} {a f : Nat} {x : Assoc}
    (h : findAssoc st a f = some x) : x.actor_id = a ∧ x.film_id = f := by
  have hp := List.find?_some
    (show st.assocs.find? (fun z => z.actor_id == a && z.film_id == f) = some x from h)
  constructor
  · have := (Bool.and_eq_true _ _).mp hp |>.1
    simpa using this
  · have := (Bool.and_eq_true _ _).mp hp |>.2
    simpa using this

theorem delete_actor_wf {st : DB} (h : WF st) (i : Nat) :
    WF (delete_actor st i).2 := by
  unfold delete_actor
  cases hA : findActor st i with
  | none => exact h
  | some actor =>
    intro fta hm
    have hmem := List.mem_filter.mp hm
    obtain ⟨⟨a, ha, hid⟩, ⟨f, hf, hfid⟩⟩ := h fta hmem.1
    refine ⟨⟨a, ?_, hid⟩, ⟨f, hf, hfid⟩⟩
    apply List.mem_filter.mpr
    refine ⟨ha, ?_⟩
    have hne : fta.actor_id ≠ actor.id := by simpa using hmem.2
    have : a.id ≠ i := by
      rw [hid, ← findActor_id hA]
      exact hne
    simpa using this

theorem delete_film_wf {st : DB} (h : WF st) (i : Nat) :
    WF (delete_film st i).2 := by
  unfold delete_film
  cases hF : findFilm st i with
  | none => exact h
  | some film =>
    intro fta hm
    have hmem := List.mem_filter.mp hm
    obtain ⟨⟨a, ha, hid⟩, ⟨f, hf, hfid⟩⟩ := h fta hmem.1
    refine ⟨⟨a, ha, hid⟩, ⟨f, ?_, hfid⟩⟩
    apply List.mem_filter.mpr
    refine ⟨hf, ?_⟩
    have hne : fta.film_id ≠ film.id := by simpa using hmem.2
    have : f.id ≠ i := by
      rw [hfid, ← findFilm_id hF]
      exact hne
    simpa using this

theorem actor_add_film_wf {st : DB} (h : WF st) (a f : Nat) :
    WF (actor_add_film st a f).2 := by
  unfold actor_add_film
  cases hA : findActor st a with
  | none => exact h
  | some actorRec =>
    cases hX : findAssoc st a f with
    | some x => exact h
    | none =>
      cases hF : findFilm st f with
      | none => exact h
      | some filmRec =>
        intro fta hm
        rcases List.mem_append.mp hm with hold | hnew
        · obtain ⟨⟨a', ha', hid⟩, ⟨f', hf', hfid⟩⟩ := h fta hold
          exact ⟨⟨a', ha', hid⟩, ⟨f', hf', hfid⟩⟩
        · have : fta = ⟨st.nextId, f, a⟩ := by simpa using hnew
          subst this
          exact ⟨⟨actorRec, List.mem_of_find?_eq_some hA, findActor_id hA⟩,
            ⟨filmRec, List.mem_of_find?_eq_some hF, findFilm_id hF⟩⟩

theorem film_add_actor_wf {st : DB} (h : WF st) (f a : Nat) :
    WF (film_add_actor st f a).2 := by
  unfold film_add_actor
  cases hF : findFilm st f with
  | none => exact h
  | some filmRec =>
    cases hA : findActor st a with
    | none => exact h
    | some actorRec =>
      cases hX : findAssoc st a f with
      | some x => exact h
      | none =>
        intro fta hm
        rcases List.mem_append.mp hm with hold | hnew
        · obtain ⟨⟨a', ha', hid⟩, ⟨f', hf', hfid⟩⟩ := h fta hold
          exact ⟨⟨a', ha', hid⟩, ⟨f', hf', hfid⟩⟩
        · have : fta = ⟨st.nextId, f, a⟩ := by simpa using hnew
          subst this
          exact ⟨⟨actorRec, List.mem_of_find?_eq_some hA, findActor_id hA⟩,
            ⟨filmRec, List.mem_of_find?_eq_some hF, findFilm_id hF⟩⟩

theorem actor_delete_film_wf {st : DB} (h : WF st) (a f : Nat) :
    WF (actor_delete_film st a f).2 := by
  unfold actor_delete_film
  cases findAssoc st a f with
  | none => exact h
  | some fta =>
    intro x hm
    exact h x (List.mem_filter.mp hm).1

theorem film_delete_actor_wf {st : DB} (h : WF st) (f a : Nat) :
    WF (film_delete_actor st f a).2 := by
  unfold film_delete_actor
  cases findAssoc st a f with
  | none => exact h
  | some fta =>
    intro x hm
    exact h x (List.mem_filter.mp hm).1

/-- Every store the application can reach satisfies the foreign-key
invariant. -/
theorem reachable_wf {st : DB} (h : Reachable st) : WF st := by
  induction h with
  | base => intro x hx; cases hx
  | stepAddActor today cs form _ ih => exact add_actor_wf ih today cs form
  | stepUpdateActor today cs i form _ ih => exact update_actor_wf ih today cs i form
  | stepAddFilm today cs form _ ih => exact add_film_wf ih today cs form
  | stepUpdateFilm today cs i form _ ih => exact update_film_wf ih today cs i form
  | stepDeleteActor i _ ih => exact delete_actor_wf ih i
  | stepDeleteFilm i _ ih => exact delete_film_wf ih i
  | stepActorAddFilm a f _ ih => exact actor_add_film_wf ih a f
  | stepFilmAddActor f a _ ih => exact film_add_actor_wf ih f a
  | stepActorDeleteFilm a f _ ih => exact actor_delete_film_wf ih a f
  | stepFilmDeleteActor f a _ ih => exact film_delete_actor_wf ih f a

/-- Under the foreign keys, a join row for (a, f) forces both referenced
entities to exist. -/
theorem wf_assoc_entities {st : DB} (hwf : WF st) {a f : Nat} {x : Assoc}
    (h : findAssoc st a f = some x) :
    findActor st a ≠ none ∧ findFilm st f ≠ none := by
  obtain ⟨hact, hfid⟩ := findAssoc_ids h
  obtain ⟨⟨a', ha', hid⟩, ⟨f', hf', hfid'⟩⟩ := hwf x (List.mem_of_find?_eq_some h)
  constructor
  · intro hnone
    exact List.find?_eq_none.mp hnone a' ha' (by simp [hid, hact])
  · intro hnone
    exact List.find?_eq_none.mp hnone f' hf' (by simp [hfid', hfid])

/-- No join row for the pair means the pair count is zero. -/
theorem countPair_zero {st : DB} {a f : Nat} (h : findAssoc st a f = none) :
    countPair st a f = 0 := by
  unfold countPair
  rw [List.length_eq_zero, List.filter_eq_nil_iff]
  intro x hx
  exact List.find?_eq_none.mp h x hx

/-! ## Sample states used by the closed witnesses -/

def sampleFilm : FilmRec := ⟨0, "Dune", "d", 2021, "8", "United States", "completed", "x"⟩

def sampleActor : ActorRec :=
  ⟨1, "John Doe", some ⟨1980, 1, 1⟩, "Male", some ⟨2000, 1, 1⟩, "United States"⟩

/-- One film, one actor, no link yet. -/
def sampleDB : DB := ⟨[sampleActor], [sampleFilm], [], 2⟩

/-- One film, one actor, linked. -/
def sampleDB2 : DB := ⟨[sampleActor], [sampleFilm], [⟨2, 0, 1⟩], 3⟩

def today0 : Date := ⟨2026, 10, 12⟩

/-! ## The claims -/

/-- C1: the spec makes the external rating lookup best-effort — its
failure or an empty match list must still render the film's stored
data with the rating unavailable. The code only honours the empty-match
half: on a non-200 response `get_rating_movie` returns `None` and
`detail` immediately subscripts it (`movie_data['docs']`), raising
`TypeError` instead of rendering; with a 200 response and zero matches
the page does render with no rating. -/
theorem C1_rating_failure_crashes_detail :
    film_detail sampleDB 0 ⟨500, ⟨[]⟩⟩ =
      .serverError "TypeError: NoneType object is not subscriptable" ∧
    film_detail sampleDB 0 ⟨200, ⟨[]⟩⟩ = .ok (sampleFilm, none) :=
  ⟨rfl, rfl⟩

/-- C3: the spec makes the death date optional and its sample scenario
creates an actor with no death date; the code parses the death field
unconditionally with `strptime`, so an empty death field raises
`ValueError` and no record is stored — the create cannot produce a null
death date. -/
theorem C3_absent_death_not_accepted :
    add_actor today0 ["United States"] ⟨[], [], [], 0⟩
        ⟨"John Doe", "1980-01-01", "Male", "United States", ""⟩ =
      (.serverError "ValueError: invalid date", ⟨[], [], [], 0⟩) := rfl

/-- C9: the derived age is null without a birth date; otherwise it is
the current year minus the birth year, less one exactly when the current
month precedes the birth month, or the months agree and the current day
precedes the birth day. -/
theorem C9_age_formula (today : Date) (a : ActorRec) :
    (a.birth_date = none → ActorRec.age today a = none) ∧
    (∀ b : Date, a.birth_date = some b →
      ActorRec.age today a =
        some (if today.month < b.month ∨ (today.month = b.month ∧ today.day < b.day) then
          (today.year : Int) - (b.year : Int) - 1
        else
          (today.year : Int) - (b.year : Int))) := by
  refine ⟨fun h => by simp [ActorRec.age, h], fun b h => ?_⟩
  simp only [ActorRec.age, h]
  by_cases h1 : today.month < b.month
  · simp [h1]
  · by_cases h2 : today.month = b.month
    · by_cases h3 : today.day < b.day
      · simp [h1, h2, h3]
      · simp [h1, h2, h3]
    · simp [h1, h2]

theorem C9_age_formula_witness :
    ActorRec.age today0 ⟨0, "A", none, "M", none, "US"⟩ = none ∧
    ActorRec.age today0 ⟨0, "B", some ⟨1980, 11, 2⟩, "M", none, "US"⟩ = some 45 := by
  constructor
  · exact (C9_age_formula today0 ⟨0, "A", none, "M", none, "US"⟩).1 rfl
  · have h := (C9_age_formula today0 ⟨0, "B", some ⟨1980, 11, 2⟩, "M", none, "US"⟩).2
      ⟨1980, 11, 2⟩ rfl
    rw [h]
    norm_num [today0]

/-- C7: unlinking a pair with no join row succeeds as a no-op on either
side, leaving the whole store — join table and both entity tables —
unchanged. -/
theorem C7_unlink_absent_noop (st : DB) (a f : Nat) (h : findAssoc st a f = none) :
    actor_delete_film st a f = (.ok (), st) ∧
    film_delete_actor st f a = (.ok (), st) := by
  unfold actor_delete_film film_delete_actor
  simp [h]

theorem C7_unlink_absent_noop_witness :
    actor_delete_film sampleDB 1 0 = (.ok (), sampleDB) ∧
    film_delete_actor sampleDB 0 1 = (.ok (), sampleDB) :=
  C7_unlink_absent_noop sampleDB 1 0 rfl

/-- C6: deleting an existing actor produces, in one step, the store with
every join row referencing the actor removed and the actor row removed
(films untouched); a subsequent detail lookup reports not-found and no
surviving join row references the deleted id. -/
theorem C6_delete_actor_cascades (st : DB) (aid : Nat) (a : ActorRec)
    (h : findActor st aid = some a) :
    delete_actor st aid =
      (.ok (), ⟨st.actors.filter (fun x => x.id != aid), st.films,
        st.assocs.filter (fun x => x.actor_id != aid), st.nextId⟩) ∧
    (actor_detail (delete_actor st aid).2 aid).cls = .nf ∧
    (∀ x ∈ (delete_actor st aid).2.assocs, x.actor_id ≠ aid) ∧
    (delete_actor st aid).2.films = st.films := by
  have hid := findActor_id h
  have hmain : delete_actor st aid =
      (.ok (), ⟨st.actors.filter (fun x => x.id != aid), st.films,
        st.assocs.filter (fun x => x.actor_id != aid), st.nextId⟩) := by
    unfold delete_actor
    simp only [h, hid]
  refine ⟨hmain, ?_, ?_, ?_⟩
  · rw [hmain]
    have hnone : findActor ⟨st.actors.filter (fun x => x.id != aid), st.films,
        st.assocs.filter (fun x => x.actor_id != aid), st.nextId⟩ aid = none := by
      unfold findActor
      rw [List.find?_eq_none]
      intro x hx
      have hp := (List.mem_filter.mp hx).2
      simpa using hp
    unfold actor_detail
    rw [hnone]
    rfl
  · rw [hmain]
    intro x hx
    have hp := (List.mem_filter.mp hx).2
    simpa using hp
  · rw [hmain]

theorem C6_delete_actor_cascades_witness :
    delete_actor sampleDB2 1 =
      (.ok (), ⟨sampleDB2.actors.filter (fun x => x.id != 1), sampleDB2.films,
        sampleDB2.assocs.filter (fun x => x.actor_id != 1), sampleDB2.nextId⟩) ∧
    (actor_detail (delete_actor sampleDB2 1).2 1).cls = .nf ∧
    (∀ x ∈ (delete_actor sampleDB2 1).2.assocs, x.actor_id ≠ 1) ∧
    (delete_actor sampleDB2 1).2.films = sampleDB2.films :=
  C6_delete_actor_cascades sampleDB2 1 sampleActor rfl

/-- C10: neither create nor update constrains the sex field: whenever
the date checks and the country check pass, the submitted sex string —
whatever it is — is stored verbatim. -/
theorem C10_sex_not_validated (today : Date) (countries : List String) (st : DB)
    (form : ActorForm) (aid : Nat) (b d : Date)
    (hb : parseDate form.birth_date = some b) (hd : parseDate form.death = some d)
    (h1 : Date.lt today b = false) (h2 : Date.lt d b = false)
    (h3 : Date.lt today d = false) (h4 : form.country ∈ countries) :
    add_actor today countries st form =
      (.ok st.nextId,
        ⟨st.actors ++
          [⟨st.nextId, form.full_name, some b, form.sex, some d, form.country⟩],
          st.films, st.assocs, st.nextId + 1⟩) ∧
    (∀ a : ActorRec, findActor st aid = some a →
      update_actor today countries st aid form =
        (.ok a.id,
          ⟨st.actors.map (fun x =>
            if x.id == a.id then
              ⟨x.id, form.full_name, some b, form.sex, some d, form.country⟩
            else x), st.films, st.assocs, st.nextId⟩)) := by
  constructor
  · unfold add_actor
    simp [hb, hd, h1, h2, h3, h4]
  · intro a ha
    unfold update_actor
    simp [ha, hb, hd, h1, h2, h3, h4]

theorem C10_sex_not_validated_witness :
    add_actor today0 ["United States"] sampleDB
        ⟨"Ann", "1990-05-05", "", "United States", "1995-06-06"⟩ =
      (.ok sampleDB.nextId,
        ⟨sampleDB.actors ++
          [⟨sampleDB.nextId, "Ann", some ⟨1990, 5, 5⟩, "", some ⟨1995, 6, 6⟩,
            "United States"⟩],
          sampleDB.films, sampleDB.assocs, sampleDB.nextId + 1⟩) ∧
    (∀ a : ActorRec, findActor sampleDB 1 = some a →
      update_actor today0 ["United States"] sampleDB 1
          ⟨"Ann", "1990-05-05", "", "United States", "1995-06-06"⟩ =
        (.ok a.id,
          ⟨sampleDB.actors.map (fun x =>
            if x.id == a.id then
              ⟨x.id, "Ann", some ⟨1990, 5, 5⟩, "", some ⟨1995, 6, 6⟩, "United States"⟩
            else x), sampleDB.films, sampleDB.assocs, sampleDB.nextId⟩)) :=
  C10_sex_not_validated today0 ["United States"] sampleDB
    ⟨"Ann", "1990-05-05", "", "United States", "1995-06-06"⟩ 1
    ⟨1990, 5, 5⟩ ⟨1995, 6, 6⟩ rfl rfl (by decide) (by decide) (by decide) (by decide)

/-- C5: on both the create and the update path the four actor checks run
in the fixed order birth-in-future, death-before-birth, death-in-future,
unrecognized-country; the first failing one fixes the reported message,
and every failure leaves the store untouched. -/
theorem C5_actor_validation_order (today : Date) (countries : List String)
    (st : DB) (form : ActorForm) (aid : Nat) (b d : Date)
    (hb : parseDate form.birth_date = some b) (hd : parseDate form.death = some d) :
    (Date.lt today b = true →
      add_actor today countries st form =
        (.badRequest "Birth date cannot be in the future.", st)) ∧
    (Date.lt today b = false → Date.lt d b = true →
      add_actor today countries st form =
        (.badRequest "Birth date cannot bigger than death", st)) ∧
    (Date.lt today b = false → Date.lt d b = false → Date.lt today d = true →
      add_actor today countries st form =
        (.badRequest "Death date cannot be in the future.", st)) ∧
    (Date.lt today b = false → Date.lt d b = false → Date.lt today d = false →
      form.country ∉ countries →
      add_actor today countries st form =
        (.badRequest "This country does not exists, please write full name of your country",
          st)) ∧
    (∀ a : ActorRec, findActor st aid = some a →
      (Date.lt today b = true →
        update_actor today countries st aid form =
          (.badRequest "Birth date cannot be in the future.", st)) ∧
      (Date.lt today b = false → Date.lt d b = true →
        update_actor today countries st aid form =
          (.badRequest "Birth date cannot bigger than death", st)) ∧
      (Date.lt today b = false → Date.lt d b = false → Date.lt today d = true →
        update_actor today countries st aid form =
          (.badRequest "Death date cannot be in the future.", st)) ∧
      (Date.lt today b = false → Date.lt d b = false → Date.lt today d = false →
        form.country ∉ countries →
        update_actor today countries st aid form =
          (.badRequest "This country does not exists, please write full name of your country",
            st))) := by
  refine ⟨fun h1 => ?_, fun h1 h2 => ?_, fun h1 h2 h3 => ?_, fun h1 h2 h3 h4 => ?_,
    fun a ha => ⟨fun h1 => ?_, fun h1 h2 => ?_, fun h1 h2 h3 => ?_, fun h1 h2 h3 h4 => ?_⟩⟩
  · unfold add_actor; simp [hb, hd, h1]
  · unfold add_actor; simp [hb, hd, h1, h2]
  · unfold add_actor; simp [hb, hd, h1, h2, h3]
  · unfold add_actor; simp [hb, hd, h1, h2, h3, h4]
  · unfold update_actor; simp [ha, hb, hd, h1]
  · unfold update_actor; simp [ha, hb, hd, h1, h2]
  · unfold update_actor; simp [ha, hb, hd, h1, h2, h3]
  · unfold update_actor; simp [ha, hb, hd, h1, h2, h3, h4]

theorem C5_actor_validation_order_witness :
    add_actor today0 ["United States"] sampleDB
        ⟨"Zed", "1990-05-05", "Male", "Atlantis", "1995-06-06"⟩ =
      (.badRequest "This country does not exists, please write full name of your country",
        sampleDB) :=
  (C5_actor_validation_order today0 ["United States"] sampleDB
      ⟨"Zed", "1990-05-05", "Male", "Atlantis", "1995-06-06"⟩ 1
      ⟨1990, 5, 5⟩ ⟨1995, 6, 6⟩ rfl rfl).2.2.2.1
    (by decide) (by decide) (by decide) (by decide)

set_option maxRecDepth 8000 in
/-- C4 counterexample: a film create whose title has exactly 200
characters and every other validation passing is rejected (the code
tests `len(title) >= 200`), where the claim promises acceptance of
titles of at most 200 characters. -/
theorem C4_exact_limit_rejected :
    (add_film today0 ["United States"] sampleDB
        ⟨String.mk (List.replicate 200 'a'), "d", "United States", "2020", "8.5",
          "completed", "g"⟩).1.cls ≠ Oclass.success ∧
    (add_film today0 ["United States"] sampleDB
        ⟨String.mk (List.replicate 200 'a'), "d", "United States", "2020", "8.5",
          "completed", "g"⟩).1 =
      .badRequest "Length of title must not be greater than 200 symbols" ∧
    (add_film today0 ["United States"] sampleDB
        ⟨String.mk (List.replicate 200 'a'), "d", "United States", "2020", "8.5",
          "completed", "g"⟩).2 = sampleDB := by
  have h1 : (add_film today0 ["United States"] sampleDB
      ⟨String.mk (List.replicate 200 'a'), "d", "United States", "2020", "8.5",
        "completed", "g"⟩).1 =
      .badRequest "Length of title must not be greater than 200 symbols" := rfl
  refine ⟨?_, h1, rfl⟩
  rw [h1]
  simp [Outcome.cls]

/-- C4 (amended): a title of at most 199 characters, a description of at
most 999 and a genre of at most 149 are accepted (all other validations
passing); a field that reaches or exceeds 200/1000/150 characters is
rejected as a client-input error with the store unchanged, on both the
create and the update path. -/
theorem C4_film_length_limits (today : Date) (countries : List String)
    (st : DB) (form : FilmForm) (fid : Nat) :
    (MAX_TITLE_LENGTH ≤ form.title.length ∨
     MAX_DESCRIPTION_LENGTH ≤ form.description.length ∨
     MAX_GENRE_LENGTH ≤ form.genre.length →
      ((add_film today countries st form).1.cls = .bad ∧
        (add_film today countries st form).2 = st) ∧
      (findFilm st fid ≠ none →
        (update_film today countries st fid form).1.cls = .bad ∧
        (update_film today countries st fid form).2 = st)) ∧
    (form.title.length < MAX_TITLE_LENGTH →
     form.description.length < MAX_DESCRIPTION_LENGTH →
     form.genre.length < MAX_GENRE_LENGTH →
     ∀ y : Int, parseInt form.year = some y → ¬ (today.year : Int) < y →
     form.country ∈ countries → form.status ∈ valid_statuses →
      (add_film today countries st form).1.cls = .success ∧
      (findFilm st fid ≠ none →
        (update_film today countries st fid form).1.cls = .success)) := by
  constructor
  · intro hrej
    have hone : ∀ r : Outcome Nat × DB,
        (MAX_TITLE_LENGTH ≤ form.title.length →
          r = (.badRequest "Length of title must not be greater than 200 symbols", st)) →
        True := fun _ _ => trivial
    clear hone
    constructor
    · unfold add_film
      rcases hrej with h | h | h
      · simp [h, Outcome.cls]
      · by_cases ht : MAX_TITLE_LENGTH ≤ form.title.length
        · simp [ht, Outcome.cls]
        · simp [ht, h, Outcome.cls]
      · by_cases ht : MAX_TITLE_LENGTH ≤ form.title.length
        · simp [ht, Outcome.cls]
        · by_cases hde : MAX_DESCRIPTION_LENGTH ≤ form.description.length
          · simp [ht, hde, Outcome.cls]
          · simp [ht, hde, h, Outcome.cls]
    · intro hex
      cases hM : findFilm st fid with
      | none => exact absurd hM hex
      | some f0 =>
        unfold update_film
        rcases hrej with h | h | h
        · simp [hM, h, Outcome.cls]
        · by_cases ht : MAX_TITLE_LENGTH ≤ form.title.length
          · simp [hM, ht, Outcome.cls]
          · simp [hM, ht, h, Outcome.cls]
        · by_cases ht : MAX_TITLE_LENGTH ≤ form.title.length
          · simp [hM, ht, Outcome.cls]
          · by_cases hde : MAX_DESCRIPTION_LENGTH ≤ form.description.length
            · simp [hM, ht, hde, Outcome.cls]
            · simp [hM, ht, hde, h, Outcome.cls]
  · intro ht hde hg y hy hyear hc hs
    constructor
    · unfold add_film
      simp [Nat.not_le.mpr ht, Nat.not_le.mpr hde, Nat.not_le.mpr hg, hy, hyear,
        hc, hs, Outcome.cls]
    · intro hex
      cases hM : findFilm st fid with
      | none => exact absurd hM hex
      | some f0 =>
        unfold update_film
        simp [hM, Nat.not_le.mpr ht, Nat.not_le.mpr hde, Nat.not_le.mpr hg, hy, hyear,
          hc, hs, Outcome.cls]

set_option maxRecDepth 8000 in
theorem C4_film_length_limits_witness :
    (add_film today0 ["United States"] sampleDB
        ⟨"Tron", "d", "United States", "2020", "8.5", "completed", "g"⟩).1.cls =
      Oclass.success ∧
    (add_film today0 ["United States"] sampleDB
        ⟨"Tron", String.mk (List.replicate 1000 'b'), "United States", "2020", "8.5",
          "completed", "g"⟩).1.cls = Oclass.bad := by
  constructor
  · exact ((C4_film_length_limits today0 ["United States"] sampleDB
      ⟨"Tron", "d", "United States", "2020", "8.5", "completed", "g"⟩ 0).2
      (by decide) (by decide) (by decide) 2020 (by decide) (by decide) (by decide)
      (by decide)).1
  · exact (((C4_film_length_limits today0 ["United States"] sampleDB
      ⟨"Tron", String.mk (List.replicate 1000 'b'), "United States", "2020", "8.5",
        "completed", "g"⟩ 0).1
      (Or.inr (Or.inl (by decide)))).1).1

/-- What the spec's Link(actorId, filmId) does on a store: not-found
when either endpoint is missing, conflict (store unchanged) when the
pair is already linked, and otherwise exactly one new join row — after
which linking the same pair again conflicts, leaves the store alone, and
the pair's row count stays one. -/
def LinkSpec (link : DB → Nat → Nat → Outcome Nat × DB) (st : DB) (a f : Nat) : Prop :=
  ((findActor st a = none ∨ findFilm st f = none) →
    (link st a f).1.cls = .nf ∧ (link st a f).2 = st) ∧
  (findActor st a ≠ none → findAssoc st a f ≠ none →
    (link st a f).1.cls = .conf ∧ (link st a f).2 = st) ∧
  (findActor st a ≠ none → findFilm st f ≠ none → findAssoc st a f = none →
    (link st a f).1.cls = .success ∧
    (link st a f).2.assocs = st.assocs ++ [⟨st.nextId, f, a⟩] ∧
    countPair (link st a f).2 a f = 1 ∧
    (link (link st a f).2 a f).1.cls = .conf ∧
    (link (link st a f).2 a f).2 = (link st a f).2)

/-- After appending the pair's fresh join row, the pair is found. -/
theorem findAssoc_after_append {st : DB} {a f : Nat}
    (h : findAssoc st a f = none) (n : Nat) :
    findAssoc ⟨st.actors, st.films, st.assocs ++ [⟨n, f, a⟩], st.nextId + 1⟩ a f =
      some ⟨n, f, a⟩ := by
  unfold findAssoc at h ⊢
  rw [List.find?_append, h]
  simp

/-- After appending the pair's fresh join row, the pair count is one. -/
theorem countPair_after_append {st : DB} {a f : Nat}
    (h : findAssoc st a f = none) (n : Nat) :
    countPair ⟨st.actors, st.films, st.assocs ++ [⟨n, f, a⟩], st.nextId + 1⟩ a f = 1 := by
  unfold countPair
  rw [List.filter_append]
  have h0 : st.assocs.filter (fun x => x.actor_id == a && x.film_id == f) = [] := by
    rw [List.filter_eq_nil_iff]
    intro x hx
    exact List.find?_eq_none.mp h x hx
  rw [h0]
  simp

theorem linkSpec_actor_side {st : DB} (hwf : WF st) (a f : Nat) :
    LinkSpec actor_add_film st a f := by
  refine ⟨?_, ?_, ?_⟩
  · rintro (ha | hf)
    · unfold actor_add_film
      simp [ha, Outcome.cls]
    · have hX : findAssoc st a f = none := by
        cases hX' : findAssoc st a f with
        | none => rfl
        | some x => exact absurd hf (wf_assoc_entities hwf hX').2
      cases hA : findActor st a with
      | none => unfold actor_add_film; simp [hA, Outcome.cls]
      | some ar => unfold actor_add_film; simp [hA, hX, hf, Outcome.cls]
  · intro hA hX
    cases hA' : findActor st a with
    | none => exact absurd hA' hA
    | some ar =>
      cases hX' : findAssoc st a f with
      | none => exact absurd hX' hX
      | some x =>
        unfold actor_add_film
        simp [hA', hX', Outcome.cls]
  · intro hA hF hX
    cases hA' : findActor st a with
    | none => exact absurd hA' hA
    | some ar =>
      cases hF' : findFilm st f with
      | none => exact absurd hF' hF
      | some fr =>
        have hstep : actor_add_film st a f =
            (.ok st.nextId,
              ⟨st.actors, st.films, st.assocs ++ [⟨st.nextId, f, a⟩], st.nextId + 1⟩) := by
          unfold actor_add_film
          simp [hA', hF', hX]
        refine ⟨by rw [hstep]; rfl, by rw [hstep], ?_, ?_, ?_⟩
        · rw [hstep]
          exact countPair_after_append hX st.nextId
        · rw [hstep]
          unfold actor_add_film
          simp [show findActor
              ⟨st.actors, st.films, st.assocs ++ [⟨st.nextId, f, a⟩], st.nextId + 1⟩ a =
              some ar from hA', findAssoc_after_append hX st.nextId, Outcome.cls]
        · rw [hstep]
          unfold actor_add_film
          simp [show findActor
              ⟨st.actors, st.films, st.assocs ++ [⟨st.nextId, f, a⟩], st.nextId + 1⟩ a =
              some ar from hA', findAssoc_after_append hX st.nextId]

theorem linkSpec_film_side {st : DB} (hwf : WF st) (a f : Nat) :
    LinkSpec (fun st a f => film_add_actor st f a) st a f := by
  unfold LinkSpec
  dsimp only
  refine ⟨?_, ?_, ?_⟩
  · rintro (ha | hf)
    · cases hF : findFilm st f with
      | none => unfold film_add_actor; simp [hF, Outcome.cls]
      | some fr => unfold film_add_actor; simp [hF, ha, Outcome.cls]
    · unfold film_add_actor
      simp [hf, Outcome.cls]
  · intro hA hX
    cases hA' : findActor st a with
    | none => exact absurd hA' hA
    | some ar =>
      cases hX' : findAssoc st a f with
      | none => exact absurd hX' hX
      | some x =>
        have hF : findFilm st f ≠ none := (wf_assoc_entities hwf hX').2
        cases hF' : findFilm st f with
        | none => exact absurd hF' hF
        | some fr =>
          unfold film_add_actor
          simp [hF', hA', hX', Outcome.cls]
  · intro hA hF hX
    cases hA' : findActor st a with
    | none => exact absurd hA' hA
    | some ar =>
      cases hF' : findFilm st f with
      | none => exact absurd hF' hF
      | some fr =>
        have hstep : film_add_actor st f a =
            (.ok st.nextId,
              ⟨st.actors, st.films, st.assocs ++ [⟨st.nextId, f, a⟩], st.nextId + 1⟩) := by
          unfold film_add_actor
          simp [hA', hF', hX]
        refine ⟨by rw [hstep]; rfl, by rw [hstep], ?_, ?_, ?_⟩
        · rw [hstep]
          exact countPair_after_append hX st.nextId
        · rw [hstep]
          unfold film_add_actor
          simp [show findFilm
              ⟨st.actors, st.films, st.assocs ++ [⟨st.nextId, f, a⟩], st.nextId + 1⟩ f =
              some fr from hF',
            show findActor
              ⟨st.actors, st.films, st.assocs ++ [⟨st.nextId, f, a⟩], st.nextId + 1⟩ a =
              some ar from hA', findAssoc_after_append hX st.nextId, Outcome.cls]
        · rw [hstep]
          unfold film_add_actor
          simp [show findFilm
              ⟨st.actors, st.films, st.assocs ++ [⟨st.nextId, f, a⟩], st.nextId + 1⟩ f =
              some fr from hF',
            show findActor
              ⟨st.actors, st.films, st.assocs ++ [⟨st.nextId, f, a⟩], st.nextId + 1⟩ a =
              some ar from hA', findAssoc_after_append hX st.nextId]

/-- C2: on any store satisfying the join table's foreign keys, both link
operations fail not-found when the actor or the film is missing, fail
with a conflict when the pair is already linked, and otherwise create
exactly one join row; relinking the created pair conflicts and the
pair's row count stays one. -/
theorem C2_link_semantics (st : DB) (a f : Nat) (hwf : WF st) :
    LinkSpec actor_add_film st a f ∧
    LinkSpec (fun st a f => film_add_actor st f a) st a f :=
  ⟨linkSpec_actor_side hwf a f, linkSpec_film_side hwf a f⟩

theorem C2_link_semantics_witness :
    LinkSpec actor_add_film sampleDB 1 0 ∧
    LinkSpec (fun st a f => film_add_actor st f a) sampleDB 1 0 :=
  C2_link_semantics sampleDB 1 0 (by decide)

/-- C8: on every reachable store the actor-side link (add a film to an
actor) and the film-side link (add an actor to a film) agree: same
outcome class and identical resulting store. -/
theorem C8_link_sides_equivalent (st : DB) (a f : Nat) (h : Reachable st) :
    (actor_add_film st a f).1.cls = (film_add_actor st f a).1.cls ∧
    (actor_add_film st a f).2 = (film_add_actor st f a).2 := by
  have hwf := reachable_wf h
  cases hA : findActor st a with
  | none =>
    cases hF : findFilm st f with
    | none =>
      have hX : findAssoc st a f = none := by
        cases hX' : findAssoc st a f with
        | none => rfl
        | some x => exact absurd hF (wf_assoc_entities hwf hX').2
      unfold actor_add_film film_add_actor
      simp [hA, hF, hX, Outcome.cls]
    | some fr =>
      have hX : findAssoc st a f = none := by
        cases hX' : findAssoc st a f with
        | none => rfl
        | some x => exact absurd hA (wf_assoc_entities hwf hX').1
      unfold actor_add_film film_add_actor
      simp [hA, hF, hX, Outcome.cls]
  | some ar =>
    cases hF : findFilm st f with
    | none =>
      have hX : findAssoc st a f = none := by
        cases hX' : findAssoc st a f with
        | none => rfl
        | some x => exact absurd hF (wf_assoc_entities hwf hX').2
      unfold actor_add_film film_add_actor
      simp [hA, hF, hX, Outcome.cls]
    | some fr =>
      cases hX : findAssoc st a f with
      | none =>
        unfold actor_add_film film_add_actor
        simp [hA, hF, hX, Outcome.cls]
      | some x =>
        unfold actor_add_film film_add_actor
        simp [hA, hF, hX, Outcome.cls]

theorem C8_link_sides_equivalent_witness :
    (actor_add_film (add_actor today0 ["United States"] ⟨[], [], [], 0⟩
        ⟨"John Doe", "1980-01-01", "Male", "United States", "2000-01-01"⟩).2 0 5).1.cls =
      (film_add_actor (add_actor today0 ["United States"] ⟨[], [], [], 0⟩
        ⟨"John Doe", "1980-01-01", "Male", "United States", "2000-01-01"⟩).2 5 0).1.cls ∧
    (actor_add_film (add_actor today0 ["United States"] ⟨[], [], [], 0⟩
        ⟨"John Doe", "1980-01-01", "Male", "United States", "2000-01-01"⟩).2 0 5).2 =
      (film_add_actor (add_actor today0 ["United States"] ⟨[], [], [], 0⟩
        ⟨"John Doe", "1980-01-01", "Male", "United States", "2000-01-01"⟩).2 5 0).2 :=
  C8_link_sides_equivalent _ 0 5
    (Reachable.stepAddActor today0 ["United States"]
      ⟨"John Doe", "1980-01-01", "Male", "United States", "2000-01-01"⟩ Reachable.base)

end FilmsApp
